import Mathlib

/-!
Shallow embedding of NuRaft's dynamic cluster-membership unit
(`src/handle_join_leave.cxx`). The code is translated from the C++
source into executable Lean definitions: the `raft_server` fields that
this unit reads and writes become a Lean structure, each handler becomes
a state-passing function, and externally visible actions (RPC sends,
snapshot-context releases, persistence, replication triggers) are
recorded as an explicit effect list. Machine integers that matter
(`int32 gap`) are modelled with explicit two's-complement truncation.
-/

namespace NuRaft

/-- Roles a raft server can have (`srv_role` in `srv_role.hxx`). -/
inductive srv_role where
  | leader
  | candidate
  | follower
deriving DecidableEq, Repr

/-- Value types of log entries (`log_val_type`); only the kinds this unit
inspects are distinguished. -/
inductive log_val_type where
  | app_log
  | conf
  | cluster_server
  | log_pack
  | snp_sync_req
deriving DecidableEq, Repr

/-- Message kinds used by this unit (`msg_type`). -/
inductive msg_type where
  | add_server_request
  | add_server_response
  | join_cluster_request
  | join_cluster_response
  | sync_log_request
  | sync_log_response
  | remove_server_request
  | remove_server_response
  | leave_cluster_request
  | leave_cluster_response
  | install_snapshot_request
deriving DecidableEq, Repr

/-- Result codes surfaced to the client layer (`cmd_result_code`). -/
inductive cmd_result_code where
  | OK
  | BAD_REQUEST
  | NOT_LEADER
  | SERVER_ALREADY_EXISTS
  | CONFIG_CHANGING
  | SERVER_IS_JOINING
  | CANNOT_REMOVE_LEADER
  | SERVER_NOT_FOUND
deriving DecidableEq, Repr

/-- Member descriptor (`srv_config`): numeric id, endpoint, learner flag. -/
structure srv_config where
  id : Int
  endpoint : String
  is_learner : Bool
deriving DecidableEq, Repr

/-- Cluster configuration (`cluster_config`): log index of this version,
log index of the previous version, ordered member list, opaque user
context, async-replication flag. -/
structure cluster_config where
  log_idx : Nat
  prev_log_idx : Nat
  servers : List srv_config
  user_ctx : String
  async_replication : Bool
deriving DecidableEq, Repr

/-- Contents of a serialized buffer carried by a log entry. Serialization
itself is an external collaborator, so buffers are modelled by what they
deserialize to; `raw sz` stands for any other byte string of size `sz`. -/
inductive buf_data where
  | srv_cfg (c : srv_config)
  | cluster_cfg (c : cluster_config)
  | int32_val (i : Int)
  | raw (sz : Nat)
deriving DecidableEq, Repr

/-- Size of a serialized `int32` (`sz_int`). -/
def sz_int : Nat := 4

/-- Log entry stored in the log store: term, value type, payload buffer. -/
structure log_entry where
  term : Nat
  val_type : log_val_type
  buf : buf_data
deriving DecidableEq, Repr

/-- Buffer of a message-level log entry: either a plain serialized value
or a log pack (the packed form of a run of stored log entries). -/
inductive msg_buf where
  | plain (b : buf_data)
  | pack (entries : List log_entry)
deriving DecidableEq, Repr

/-- Log entry carried inside a request message. -/
structure msg_entry where
  term : Nat
  val_type : log_val_type
  buf : msg_buf
deriving DecidableEq, Repr

/-- Size in bytes of a message-entry buffer. Serializers live outside this
unit; what the unit relies on is that a serialized `int32` has size
`sz_int` and that serialized configurations are larger than that. -/
def msg_buf.size : msg_buf → Nat
  | msg_buf.plain (buf_data.srv_cfg c) => sz_int * 3 + c.endpoint.length + 1
  | msg_buf.plain (buf_data.cluster_cfg c) => sz_int * 4 + c.servers.length * 8 + c.user_ctx.length
  | msg_buf.plain (buf_data.int32_val _) => sz_int
  | msg_buf.plain (buf_data.raw sz) => sz
  | msg_buf.pack es => sz_int + es.length * 8

/-- Reading the leading `int32` of a buffer (`buffer::get_int`); junk in,
junk out, as in the C++ code. -/
def msg_buf.get_int : msg_buf → Int
  | msg_buf.plain (buf_data.int32_val i) => i
  | _ => 0

/-- Deserializing a member descriptor (`srv_config::deserialize`); a
buffer that was not produced by `srv_config::serialize` yields garbage,
modelled by a default descriptor. -/
def deserialize_srv_config : msg_buf → srv_config
  | msg_buf.plain (buf_data.srv_cfg c) => c
  | _ => { id := 0, endpoint := "", is_learner := false }

/-- Deserializing a cluster configuration (`cluster_config::deserialize`);
garbage buffers yield a default configuration. -/
def deserialize_cluster_config : msg_buf → cluster_config
  | msg_buf.plain (buf_data.cluster_cfg c) => c
  | _ => { log_idx := 0, prev_log_idx := 0, servers := [],
           user_ctx := "", async_replication := false }

/-- Request message (`req_msg`): term, kind, source, destination,
last-log term/index, commit index, payload entries. -/
structure req_msg where
  term : Nat
  type : msg_type
  src : Int
  dst : Int
  last_log_term : Nat
  last_log_idx : Nat
  commit_idx : Nat
  log_entries : List msg_entry
deriving DecidableEq, Repr

/-- Response message (`resp_msg`): constructed with `accepted = false`
and `next_idx` as given (0 unless the constructor sets it); `accept`
sets both. -/
structure resp_msg where
  term : Nat
  type : msg_type
  src : Int
  dst : Int
  next_idx : Nat
  accepted : Bool
  result_code : cmd_result_code
deriving DecidableEq, Repr

/-- Constructor `resp_msg(term, type, src, dst)` with default next index
0, not accepted, result code OK. -/
def mk_resp (term : Nat) (t : msg_type) (src dst : Int) : resp_msg :=
  { term := term, type := t, src := src, dst := dst,
    next_idx := 0, accepted := false, result_code := cmd_result_code.OK }

/-- Method `resp_msg::accept(next_idx)`. -/
def resp_msg.accept (r : resp_msg) (idx : Nat) : resp_msg :=
  { r with next_idx := idx, accepted := true }

/-- Method `resp_msg::set_result_code`. -/
def resp_msg.set_result_code (r : resp_msg) (c : cmd_result_code) : resp_msg :=
  { r with result_code := c }

/-- Per-remote-member runtime state (`peer`): descriptor, replication
cursors, leave flag, heartbeat state, liveness timer (microseconds), and
an optional snapshot-sync context owning an opaque user resource
(identified here by a number handed to the free callback). -/
structure peer where
  cfg : srv_config
  next_log_idx : Nat
  matched_idx : Nat
  leave_flag : Bool
  hb_enabled : Bool
  hb_slowed : Bool
  active_timer_us : Nat
  snp_sync_ctx : Option Nat
  stepped_down : Bool
deriving DecidableEq, Repr

/-- Modelled from the spec: `peer`'s constructor (peer.hxx is outside this
unit) creates a fresh handle for a discovered member with zeroed cursors,
heartbeat enabled, no snapshot context. -/
def mk_peer (c : srv_config) : peer :=
  { cfg := c, next_log_idx := 0, matched_idx := 0, leave_flag := false,
    hb_enabled := true, hb_slowed := false, active_timer_us := 0,
    snp_sync_ctx := none, stepped_down := false }

/-- Modelled from the spec: `peer::RESPONSE_LIMIT`, the join-liveness
multiplier constant applied to the heartbeat interval (peer.hxx is
outside this unit; upstream value 20). -/
def RESPONSE_LIMIT : Nat := 20

/-- Durable log store collaborator, modelled by its starting (earliest
retained) index and the retained entries in order. -/
structure log_store where
  start_index : Nat
  entries : List log_entry
deriving DecidableEq, Repr

/-- Modelled from the spec: `log_store::next_slot`, one past the last
stored index. -/
def log_store.next_slot (ls : log_store) : Nat :=
  ls.start_index + ls.entries.length

/-- Modelled from the spec: `log_store::append`. -/
def log_store.append (ls : log_store) (e : log_entry) : log_store :=
  { ls with entries := ls.entries ++ [e] }

/-- Modelled from the spec: `log_store::pack(idx, cnt)` packs up to `cnt`
stored entries starting at index `idx`. -/
def log_store.pack (ls : log_store) (idx cnt : Nat) : List log_entry :=
  (ls.entries.drop (idx - ls.start_index)).take cnt

/-- Modelled from the spec: `log_store::apply_pack(idx, pack)` writes the
packed entries starting at index `idx`, truncating anything after. -/
def log_store.apply_pack (ls : log_store) (idx : Nat) (pk : List log_entry) : log_store :=
  { ls with entries := ls.entries.take (idx - ls.start_index) ++ pk }

/-- Runtime parameters read by this unit (`raft_params`). -/
structure raft_params where
  heart_beat_interval_ : Nat
  log_sync_stop_gap_ : Int
  log_sync_batch_size_ : Int
deriving DecidableEq, Repr

/-- Externally visible actions this unit performs: RPC sends, snapshot
user-context releases through the state machine callback, node-state
persistence, the replication trigger, the become-follower callback, and
disabling a peer's heartbeat as it leaves the peer set. -/
inductive effect where
  | send_req (dst : Int) (m : req_msg)
  | free_user_snp_ctx (ctx : Nat)
  | save_state (term : Nat) (voted_for : Int)
  | request_append_entries
  | cb_become_follower
  | peer_disable_hb (id : Int)
deriving DecidableEq, Repr

/-- The slice of `raft_server` state this unit reads and writes. -/
structure raft_server where
  id_ : Int
  leader_ : Int
  role_ : srv_role
  write_paused_ : Bool
  term : Nat
  voted_for : Int
  peers_ : List (Int × peer)
  config_changing_ : Bool
  catching_up_ : Bool
  steps_to_down_ : Nat
  sm_commit_index_ : Nat
  quick_commit_index_ : Nat
  precommit_index_ : Nat
  initial_commit_index_ : Nat
  log_store_ : log_store
  config_ : cluster_config
  uncommitted_config_ : Option cluster_config
  srv_to_join_ : Option peer
  conf_to_add_ : Option srv_config
  params : raft_params
deriving DecidableEq, Repr

/-- Map lookup `peers_.find(id)`. -/
def peers_find (ps : List (Int × peer)) (i : Int) : Option peer :=
  (ps.find? (fun q => q.1 == i)).map Prod.snd

/-- Map erase `peers_.erase(it)` for the entry with key `i`. -/
def peers_erase (ps : List (Int × peer)) (i : Int) : List (Int × peer) :=
  ps.filter (fun q => q.1 != i)

/-- In-place mutation of the peer stored under key `i`. -/
def peers_update (ps : List (Int × peer)) (i : Int) (p : peer) : List (Int × peer) :=
  ps.map (fun q => if q.1 == i then (i, p) else q)

/-- Accessor `raft_server::get_config()`. -/
def get_config (s : raft_server) : cluster_config :=
  s.config_

/-- Two's-complement truncation of an integer to `int32`, as happens when
the C++ code assigns an `int64_t` difference to `int32 gap`. -/
def toInt32 (x : Int) : Int :=
  (x + 2 ^ 31) % 2 ^ 32 - 2 ^ 31

/-- Modelled from the spec: `raft_server::store_log_entry` (defined
outside this unit) appends the entry to the durable log store. -/
def store_log_entry (s : raft_server) (e : log_entry) : raft_server :=
  { s with log_store_ := s.log_store_.append e }

/-- Modelled from the spec: `raft_server::commit(idx)` (defined outside
this unit) advances the commit marker to `idx`, never regressing it. -/
def commit (s : raft_server) (idx : Nat) : raft_server :=
  if s.quick_commit_index_ < idx then { s with quick_commit_index_ := idx } else s

/-- Modelled from the spec: `raft_server::reconfigure` (defined outside
this unit) installs the received configuration as current. -/
def reconfigure (s : raft_server) (c : cluster_config) : raft_server :=
  { s with config_ := c }

/-- Modelled from the spec: `create_sync_snapshot_req` (defined outside
this unit) builds a snapshot-transfer request identified by target peer,
starting index, term and commit index. -/
def create_sync_snapshot_req (src dst : Int) (start_idx term commit_idx : Nat) : req_msg :=
  { term := term, type := msg_type.install_snapshot_request,
    src := src, dst := dst, last_log_term := 0, last_log_idx := start_idx,
    commit_idx := commit_idx, log_entries := [] }

/-- Configuration a new configuration is derived from: the uncommitted
one if it exists, else the current one (the `if (uncommitted_config_)`
blocks of `sync_log_to_new_srv` and `rm_srv_from_cluster`). -/
def current_or_uncommitted (s : raft_server) : cluster_config :=
  match s.uncommitted_config_ with
  | some u => u
  | none => get_config s

/-- Result of a handler that returns a response message. -/
structure resp_out where
  resp : resp_msg
  srv : raft_server
  effects : List effect
deriving Repr

/-- Result of a void handler. -/
structure void_out where
  srv : raft_server
  effects : List effect
deriving Repr

/-- Handler `raft_server::reset_srv_to_join`: frees the pending peer's
snapshot user context through the state machine's release callback when a
snapshot-sync context exists, then drops the pending Peer Handle. -/
def reset_srv_to_join (s : raft_server) : void_out :=
  match s.srv_to_join_ with
  | some p =>
      { srv := { s with srv_to_join_ := none },
        effects := match p.snp_sync_ctx with
                   | some ctx => [effect.free_user_snp_ctx ctx]
                   | none => [] }
  | none => { srv := s, effects := [] }

/-- Handler `raft_server::invite_srv_to_join_cluster`: sends a direct
`join_cluster_request` to the pending peer carrying the current
configuration as a single `conf` entry. -/
def invite_srv_to_join_cluster (s : raft_server) : List effect :=
  match s.srv_to_join_ with
  | some p =>
      let req : req_msg :=
        { term := s.term, type := msg_type.join_cluster_request,
          src := s.id_, dst := p.cfg.id, last_log_term := 0,
          last_log_idx := s.log_store_.next_slot - 1,
          commit_idx := s.quick_commit_index_,
          log_entries :=
            [ { term := s.term, val_type := log_val_type.conf,
                buf := msg_buf.plain (buf_data.cluster_cfg (get_config s)) } ] }
      [effect.send_req p.cfg.id req]
  | none => []

/-- Successful tail of `handle_add_srv_req`: store the pending
descriptor, create the pending Peer Handle, send the join invitation, and
accept with the next log slot. -/
def add_srv_proceed (s : raft_server) (srv_conf : srv_config) (resp : resp_msg)
    (effs : List effect) : resp_out :=
  let s1 := { s with conf_to_add_ := some srv_conf,
                     srv_to_join_ := some (mk_peer srv_conf) }
  { resp := resp.accept s1.log_store_.next_slot,
    srv := s1,
    effects := effs ++ invite_srv_to_join_cluster s1 }

/-- Handler `raft_server::handle_add_srv_req`. -/
def handle_add_srv_req (s : raft_server) (req : req_msg) : resp_out :=
  let resp := mk_resp s.term msg_type.add_server_response s.id_ s.leader_
  match req.log_entries with
  | [e] =>
      if e.val_type ≠ log_val_type.cluster_server then
        { resp := resp.set_result_code cmd_result_code.BAD_REQUEST,
          srv := s, effects := [] }
      else if s.role_ ≠ srv_role.leader ∨ s.write_paused_ = true then
        { resp := resp.set_result_code cmd_result_code.NOT_LEADER,
          srv := s, effects := [] }
      else
        let srv_conf := deserialize_srv_config e.buf
        if (peers_find s.peers_ srv_conf.id).isSome ∨ s.id_ = srv_conf.id then
          { resp := resp.set_result_code cmd_result_code.SERVER_ALREADY_EXISTS,
            srv := s, effects := [] }
        else if s.config_changing_ = true then
          { resp := resp.set_result_code cmd_result_code.CONFIG_CHANGING,
            srv := s, effects := [] }
        else
          match s.srv_to_join_ with
          | some p =>
              if p.active_timer_us / 1000 ≤
                   RESPONSE_LIMIT * s.params.heart_beat_interval_ then
                { resp := resp.set_result_code cmd_result_code.SERVER_IS_JOINING,
                  srv := s, effects := [] }
              else
                let r := reset_srv_to_join s
                add_srv_proceed r.srv srv_conf resp r.effects
          | none => add_srv_proceed s srv_conf resp []
  | _ =>
      { resp := resp.set_result_code cmd_result_code.BAD_REQUEST,
        srv := s, effects := [] }

/-- Handler `raft_server::handle_join_cluster_req` (target side). -/
def handle_join_cluster_req (s : raft_server) (req : req_msg) : resp_out :=
  let resp := mk_resp s.term msg_type.join_cluster_response s.id_ req.src
  match req.log_entries with
  | [e] =>
      if e.val_type ≠ log_val_type.conf then
        { resp := resp, srv := s, effects := [] }
      else
        let reset_commit_idx := ¬ s.catching_up_ = true
        let s1 := { s with catching_up_ := true,
                           role_ := srv_role.follower,
                           leader_ := req.src }
        let s2 := if reset_commit_idx then
                    { s1 with sm_commit_index_ := s1.initial_commit_index_,
                              quick_commit_index_ := s1.initial_commit_index_ }
                  else s1
        let s3 := { s2 with voted_for := -1, term := req.term }
        let s4 := reconfigure s3 (deserialize_cluster_config e.buf)
        { resp := resp.accept (s4.quick_commit_index_ + 1),
          srv := s4,
          effects := [effect.cb_become_follower,
                      effect.save_state req.term (-1)] }
  | _ => { resp := resp, srv := s, effects := [] }

/-- Handler `raft_server::sync_log_to_new_srv(start_idx)`: completion
branch appends the config entry admitting the pending member; otherwise
either a snapshot-transfer request or a packed run of log entries is sent
to the joining peer. -/
def sync_log_to_new_srv (s : raft_server) (start_idx : Nat) : void_out :=
  let gap : Int := toInt32 ((s.quick_commit_index_ : Int) - (start_idx : Int))
  if gap < s.params.log_sync_stop_gap_ then
    let cur_conf := current_or_uncommitted s
    let new_conf : cluster_config :=
      { log_idx := s.log_store_.next_slot,
        prev_log_idx := cur_conf.log_idx,
        servers := cur_conf.servers ++
                   (match s.conf_to_add_ with
                    | some c => [c]
                    | none => []),
        user_ctx := cur_conf.user_ctx,
        async_replication := cur_conf.async_replication }
    let entry : log_entry :=
      { term := s.term, val_type := log_val_type.conf,
        buf := buf_data.cluster_cfg new_conf }
    let s1 := store_log_entry s entry
    let s2 := { s1 with config_changing_ := true,
                        uncommitted_config_ := some new_conf }
    { srv := s2, effects := [effect.request_append_entries] }
  else
    match s.srv_to_join_ with
    | some p =>
        if start_idx < s.log_store_.start_index then
          let req := create_sync_snapshot_req s.id_ p.cfg.id start_idx
                       s.term s.quick_commit_index_
          { srv := s, effects := [effect.send_req p.cfg.id req] }
        else
          let size_to_sync : Int := min gap s.params.log_sync_batch_size_
          let log_pack := s.log_store_.pack start_idx size_to_sync.toNat
          let req : req_msg :=
            { term := s.term, type := msg_type.sync_log_request,
              src := s.id_, dst := p.cfg.id, last_log_term := 0,
              last_log_idx := start_idx - 1,
              commit_idx := s.quick_commit_index_,
              log_entries :=
                [ { term := s.term, val_type := log_val_type.log_pack,
                    buf := msg_buf.pack log_pack } ] }
          { srv := s, effects := [effect.send_req p.cfg.id req] }
    | none => { srv := s, effects := [] }

/-- Handler `raft_server::handle_join_cluster_resp` (leader side). -/
def handle_join_cluster_resp (s : raft_server) (resp : resp_msg) : void_out :=
  match s.srv_to_join_ with
  | some _ =>
      if resp.accepted = true then
        sync_log_to_new_srv s resp.next_idx
      else
        { srv := s, effects := [] }
  | none => { srv := s, effects := [] }

/-- Handler `raft_server::handle_log_sync_req` (target side). -/
def handle_log_sync_req (s : raft_server) (req : req_msg) : resp_out :=
  let resp : resp_msg :=
    { term := s.term, type := msg_type.sync_log_response,
      src := s.id_, dst := req.src,
      next_idx := s.log_store_.next_slot, accepted := false,
      result_code := cmd_result_code.OK }
  match req.log_entries with
  | [e] =>
      if e.val_type ≠ log_val_type.log_pack then
        { resp := resp, srv := s, effects := [] }
      else if s.catching_up_ ≠ true then
        { resp := resp, srv := s, effects := [] }
      else
        let pk := match e.buf with
                  | msg_buf.pack l => l
                  | msg_buf.plain _ => []
        let ls1 := s.log_store_.apply_pack (req.last_log_idx + 1) pk
        let s1 := { s with log_store_ := ls1,
                           precommit_index_ := ls1.next_slot - 1 }
        let s2 := commit s1 (ls1.next_slot - 1)
        { resp := resp.accept s2.log_store_.next_slot, srv := s2, effects := [] }
  | _ => { resp := resp, srv := s, effects := [] }

/-- Handler `raft_server::handle_log_sync_resp` (leader side). -/
def handle_log_sync_resp (s : raft_server) (resp : resp_msg) : void_out :=
  match s.srv_to_join_ with
  | some p =>
      let p1 := { p with hb_slowed := false,
                         next_log_idx := resp.next_idx,
                         matched_idx := resp.next_idx - 1 }
      let s1 := { s with srv_to_join_ := some p1 }
      sync_log_to_new_srv s1 resp.next_idx
  | none => { srv := s, effects := [] }

/-- Handler `raft_server::handle_rm_srv_req`. -/
def handle_rm_srv_req (s : raft_server) (req : req_msg) : resp_out :=
  let resp := mk_resp s.term msg_type.remove_server_response s.id_ s.leader_
  match req.log_entries with
  | [e] =>
      if e.buf.size ≠ sz_int then
        { resp := resp.set_result_code cmd_result_code.BAD_REQUEST,
          srv := s, effects := [] }
      else if s.role_ ≠ srv_role.leader ∨ s.write_paused_ = true then
        { resp := resp.set_result_code cmd_result_code.NOT_LEADER,
          srv := s, effects := [] }
      else if s.config_changing_ = true then
        { resp := resp.set_result_code cmd_result_code.CONFIG_CHANGING,
          srv := s, effects := [] }
      else
        let srv_id := e.buf.get_int
        if srv_id = s.id_ then
          { resp := resp.set_result_code cmd_result_code.CANNOT_REMOVE_LEADER,
            srv := s, effects := [] }
        else
          match peers_find s.peers_ srv_id with
          | none =>
              { resp := resp.set_result_code cmd_result_code.SERVER_NOT_FOUND,
                srv := s, effects := [] }
          | some p =>
              let leave_req : req_msg :=
                { term := s.term, type := msg_type.leave_cluster_request,
                  src := s.id_, dst := srv_id, last_log_term := 0,
                  last_log_idx := s.log_store_.next_slot - 1,
                  commit_idx := s.quick_commit_index_, log_entries := [] }
              let s1 := { s with peers_ :=
                            peers_update s.peers_ srv_id { p with leave_flag := true } }
              { resp := resp.accept s.log_store_.next_slot,
                srv := s1,
                effects := [effect.send_req srv_id leave_req] }
  | _ =>
      { resp := resp.set_result_code cmd_result_code.BAD_REQUEST,
        srv := s, effects := [] }

/-- Handler `raft_server::handle_leave_cluster_req` (target side). -/
def handle_leave_cluster_req (s : raft_server) (req : req_msg) : resp_out :=
  let resp := mk_resp s.term msg_type.leave_cluster_response s.id_ req.src
  if s.config_changing_ ≠ true then
    { resp := resp.accept s.log_store_.next_slot,
      srv := { s with steps_to_down_ := 2 }, effects := [] }
  else
    { resp := resp, srv := s, effects := [] }

/-- Handler `raft_server::rm_srv_from_cluster(srv_id)`: step down the
peer if present, derive the filtered configuration from the
current-or-uncommitted one, store it, and trigger replication. -/
def rm_srv_from_cluster (s : raft_server) (srv_id : Int) : void_out :=
  let s0 := match peers_find s.peers_ srv_id with
            | none => s
            | some p =>
                { s with peers_ :=
                    peers_update s.peers_ srv_id { p with stepped_down := true } }
  let cur_conf := current_or_uncommitted s0
  let new_conf : cluster_config :=
    { log_idx := s0.log_store_.next_slot,
      prev_log_idx := cur_conf.log_idx,
      servers := cur_conf.servers.filter (fun sc => sc.id != srv_id),
      user_ctx := cur_conf.user_ctx,
      async_replication := cur_conf.async_replication }
  let s1 := { s0 with config_changing_ := true,
                      uncommitted_config_ := some new_conf }
  let entry : log_entry :=
    { term := s1.term, val_type := log_val_type.conf,
      buf := buf_data.cluster_cfg new_conf }
  let s2 := store_log_entry s1 entry
  { srv := s2, effects := [effect.request_append_entries] }

/-- Handler `raft_server::handle_leave_cluster_resp` (leader side). -/
def handle_leave_cluster_resp (s : raft_server) (resp : resp_msg) : void_out :=
  if resp.accepted ≠ true then
    { srv := s, effects := [] }
  else
    rm_srv_from_cluster s resp.src

/-- Handler `raft_server::handle_join_leave_rpc_err`: persistent leave
failure forces removal (erasing the peer first in a 2-member cluster);
persistent join failure abandons the pending add. -/
def handle_join_leave_rpc_err (s : raft_server) (t_msg : msg_type) (p : peer) : void_out :=
  if t_msg = msg_type.leave_cluster_request then
    let pre :=
      if s.peers_.length = 1 then
        match peers_find s.peers_ p.cfg.id with
        | some _ =>
            ({ s with peers_ := peers_erase s.peers_ p.cfg.id },
             [effect.peer_disable_hb p.cfg.id])
        | none => (s, ([] : List effect))
      else (s, ([] : List effect))
    let r := rm_srv_from_cluster pre.1 p.cfg.id
    { srv := r.srv, effects := pre.2 ++ r.effects }
  else
    let s1 := { s with config_changing_ := false }
    reset_srv_to_join s1

/-- Configuration `rm_srv_from_cluster` builds: the current-or-uncommitted
configuration with `srv_id` filtered out, stamped at the next log slot. -/
def removed_conf (s : raft_server) (srv_id : Int) : cluster_config :=
  { log_idx := s.log_store_.next_slot,
    prev_log_idx := (current_or_uncommitted s).log_idx,
    servers := (current_or_uncommitted s).servers.filter (fun sc => sc.id != srv_id),
    user_ctx := (current_or_uncommitted s).user_ctx,
    async_replication := (current_or_uncommitted s).async_replication }

/-- Configuration the completion branch of `sync_log_to_new_srv` builds:
the current-or-uncommitted configuration extended with the pending member,
stamped at the next log slot. -/
def added_conf (s : raft_server) : cluster_config :=
  { log_idx := s.log_store_.next_slot,
    prev_log_idx := (current_or_uncommitted s).log_idx,
    servers := (current_or_uncommitted s).servers ++
               (match s.conf_to_add_ with
                | some c => [c]
                | none => []),
    user_ctx := (current_or_uncommitted s).user_ctx,
    async_replication := (current_or_uncommitted s).async_replication }

/-- Fixture: member descriptor with a given id. -/
def fx_srv (i : Int) : srv_config :=
  { id := i, endpoint := "", is_learner := false }

/-- Fixture: committed two-member configuration at log index 1. -/
def fx_conf : cluster_config :=
  { log_idx := 1, prev_log_idx := 0, servers := [fx_srv 1, fx_srv 2],
    user_ctx := "u", async_replication := false }

/-- Fixture: an uncommitted three-member configuration at log index 6. -/
def fx_unc_conf : cluster_config :=
  { log_idx := 6, prev_log_idx := 1, servers := [fx_srv 1, fx_srv 2, fx_srv 5],
    user_ctx := "v", async_replication := true }

/-- Fixture: one stored application log entry. -/
def fx_entry : log_entry :=
  { term := 1, val_type := log_val_type.app_log, buf := buf_data.raw 1 }

/-- Fixture: a leader of the two-member configuration with six stored log
entries (indices 1..6), commit index 5, no change in progress. -/
def fx_leader : raft_server :=
  { id_ := 1, leader_ := 1, role_ := srv_role.leader, write_paused_ := false,
    term := 3, voted_for := 1,
    peers_ := [(2, mk_peer (fx_srv 2))],
    config_changing_ := false, catching_up_ := false, steps_to_down_ := 0,
    sm_commit_index_ := 5, quick_commit_index_ := 5, precommit_index_ := 5,
    initial_commit_index_ := 0,
    log_store_ := { start_index := 1, entries := List.replicate 6 fx_entry },
    config_ := fx_conf, uncommitted_config_ := none,
    srv_to_join_ := none, conf_to_add_ := none,
    params := { heart_beat_interval_ := 100, log_sync_stop_gap_ := 2,
                log_sync_batch_size_ := 3 } }

/-- Fixture: `SyncLogRequest` carrying one log-pack entry with two packed
application entries. -/
def fx_sync_req : req_msg :=
  { term := 3, type := msg_type.sync_log_request, src := 1, dst := 2,
    last_log_term := 0, last_log_idx := 6, commit_idx := 5,
    log_entries := [ { term := 3, val_type := log_val_type.log_pack,
                       buf := msg_buf.pack [fx_entry, fx_entry] } ] }

/-- C7: a well-formed `SyncLogRequest` (one log-pack entry) received while
`catching_up_` is false gets a response whose next index is the node's
current next log slot, and the server state — log store, precommit index,
commit index included — is entirely unchanged, with no effects. -/
theorem handle_log_sync_req_not_catching_up_frame
    (s : raft_server) (req : req_msg) (e : msg_entry)
    (hE : req.log_entries = [e])
    (hT : e.val_type = log_val_type.log_pack)
    (hC : s.catching_up_ = false) :
    (handle_log_sync_req s req).resp.next_idx = s.log_store_.next_slot ∧
    (handle_log_sync_req s req).srv = s ∧
    (handle_log_sync_req s req).effects = [] := by
  simp [handle_log_sync_req, hE, hT, hC]

/-- Witness for C7 at the leader fixture (any node with `catching_up_`
false behaves the same). -/
theorem handle_log_sync_req_not_catching_up_frame_witness :
    (handle_log_sync_req fx_leader fx_sync_req).resp.next_idx =
      fx_leader.log_store_.next_slot ∧
    (handle_log_sync_req fx_leader fx_sync_req).srv = fx_leader ∧
    (handle_log_sync_req fx_leader fx_sync_req).effects = [] :=
  handle_log_sync_req_not_catching_up_frame fx_leader fx_sync_req
    { term := 3, val_type := log_val_type.log_pack,
      buf := msg_buf.pack [fx_entry, fx_entry] } rfl rfl rfl

/-- C9: a well-formed `RemoveServerRequest` naming the leader's own id,
received by a leader with no change in progress, is answered with
`CANNOT_REMOVE_LEADER`, the state is unchanged and nothing is sent. -/
theorem handle_rm_srv_req_cannot_remove_leader
    (s : raft_server) (req : req_msg) (e : msg_entry)
    (hE : req.log_entries = [e])
    (hSz : e.buf.size = sz_int)
    (hRole : s.role_ = srv_role.leader)
    (hWp : s.write_paused_ = false)
    (hCc : s.config_changing_ = false)
    (hId : e.buf.get_int = s.id_) :
    (handle_rm_srv_req s req).resp.result_code =
      cmd_result_code.CANNOT_REMOVE_LEADER ∧
    (handle_rm_srv_req s req).srv = s ∧
    (handle_rm_srv_req s req).effects = [] := by
  simp [handle_rm_srv_req, hE, hSz, hRole, hWp, hCc, hId, mk_resp,
        resp_msg.set_result_code]

/-- Witness for C9: removing id 1 at the leader fixture (which has id 1). -/
theorem handle_rm_srv_req_cannot_remove_leader_witness :
    (handle_rm_srv_req fx_leader
      { term := 3, type := msg_type.remove_server_request, src := 1, dst := 1,
        last_log_term := 0, last_log_idx := 6, commit_idx := 5,
        log_entries := [ { term := 3, val_type := log_val_type.app_log,
                           buf := msg_buf.plain (buf_data.int32_val 1) } ] }).resp.result_code =
      cmd_result_code.CANNOT_REMOVE_LEADER ∧
    (handle_rm_srv_req fx_leader
      { term := 3, type := msg_type.remove_server_request, src := 1, dst := 1,
        last_log_term := 0, last_log_idx := 6, commit_idx := 5,
        log_entries := [ { term := 3, val_type := log_val_type.app_log,
                           buf := msg_buf.plain (buf_data.int32_val 1) } ] }).srv = fx_leader ∧
    (handle_rm_srv_req fx_leader
      { term := 3, type := msg_type.remove_server_request, src := 1, dst := 1,
        last_log_term := 0, last_log_idx := 6, commit_idx := 5,
        log_entries := [ { term := 3, val_type := log_val_type.app_log,
                           buf := msg_buf.plain (buf_data.int32_val 1) } ] }).effects = [] :=
  handle_rm_srv_req_cannot_remove_leader fx_leader _
    { term := 3, val_type := log_val_type.app_log,
      buf := msg_buf.plain (buf_data.int32_val 1) } rfl rfl rfl rfl rfl rfl

/-- Fixture: `JoinClusterRequest` from leader 1 at term 4 carrying the
two-member configuration. -/
def fx_join_req : req_msg :=
  { term := 4, type := msg_type.join_cluster_request, src := 1, dst := 9,
    last_log_term := 0, last_log_idx := 6, commit_idx := 5,
    log_entries := [ { term := 4, val_type := log_val_type.conf,
                       buf := msg_buf.plain (buf_data.cluster_cfg fx_conf) } ] }

/-- Fixture: a fresh node (id 9) that is not yet catching up, with
initial commit index 2 and commit indices at 7. -/
def fx_fresh_node : raft_server :=
  { id_ := 9, leader_ := -1, role_ := srv_role.candidate, write_paused_ := false,
    term := 1, voted_for := 9,
    peers_ := [],
    config_changing_ := false, catching_up_ := false, steps_to_down_ := 0,
    sm_commit_index_ := 7, quick_commit_index_ := 7, precommit_index_ := 7,
    initial_commit_index_ := 2,
    log_store_ := { start_index := 1, entries := [fx_entry] },
    config_ := fx_conf, uncommitted_config_ := none,
    srv_to_join_ := none, conf_to_add_ := none,
    params := { heart_beat_interval_ := 100, log_sync_stop_gap_ := 2,
                log_sync_batch_size_ := 3 } }

/-- C6: a well-formed `JoinClusterRequest` (one `conf` entry) resets the
state-machine and quick commit indices to the initial commit index only
when `catching_up_` was false on receipt; on a repeated request while
already catching up, both are left unchanged; in every accepted case the
response carries `next_idx = quick_commit_index_ + 1` for the resulting
quick commit index. -/
theorem handle_join_cluster_req_commit_idx
    (s : raft_server) (req : req_msg) (e : msg_entry)
    (hE : req.log_entries = [e])
    (hT : e.val_type = log_val_type.conf) :
    (s.catching_up_ = false →
       (handle_join_cluster_req s req).srv.sm_commit_index_ =
         s.initial_commit_index_ ∧
       (handle_join_cluster_req s req).srv.quick_commit_index_ =
         s.initial_commit_index_ ∧
       (handle_join_cluster_req s req).resp.accepted = true ∧
       (handle_join_cluster_req s req).resp.next_idx =
         s.initial_commit_index_ + 1) ∧
    (s.catching_up_ = true →
       (handle_join_cluster_req s req).srv.sm_commit_index_ =
         s.sm_commit_index_ ∧
       (handle_join_cluster_req s req).srv.quick_commit_index_ =
         s.quick_commit_index_ ∧
       (handle_join_cluster_req s req).resp.accepted = true ∧
       (handle_join_cluster_req s req).resp.next_idx =
         s.quick_commit_index_ + 1) := by
  constructor <;> intro h <;>
    simp [handle_join_cluster_req, hE, hT, h, reconfigure, mk_resp,
          resp_msg.accept]

/-- Witness for C6 at the fresh-node fixture: first receipt resets the
commit indices to the initial commit index 2 and answers next index 3. -/
theorem handle_join_cluster_req_commit_idx_witness :
    (fx_fresh_node.catching_up_ = false →
       (handle_join_cluster_req fx_fresh_node fx_join_req).srv.sm_commit_index_ =
         fx_fresh_node.initial_commit_index_ ∧
       (handle_join_cluster_req fx_fresh_node fx_join_req).srv.quick_commit_index_ =
         fx_fresh_node.initial_commit_index_ ∧
       (handle_join_cluster_req fx_fresh_node fx_join_req).resp.accepted = true ∧
       (handle_join_cluster_req fx_fresh_node fx_join_req).resp.next_idx =
         fx_fresh_node.initial_commit_index_ + 1) ∧
    (fx_fresh_node.catching_up_ = true →
       (handle_join_cluster_req fx_fresh_node fx_join_req).srv.sm_commit_index_ =
         fx_fresh_node.sm_commit_index_ ∧
       (handle_join_cluster_req fx_fresh_node fx_join_req).srv.quick_commit_index_ =
         fx_fresh_node.quick_commit_index_ ∧
       (handle_join_cluster_req fx_fresh_node fx_join_req).resp.accepted = true ∧
       (handle_join_cluster_req fx_fresh_node fx_join_req).resp.next_idx =
         fx_fresh_node.quick_commit_index_ + 1) :=
  handle_join_cluster_req_commit_idx fx_fresh_node fx_join_req
    { term := 4, val_type := log_val_type.conf,
      buf := msg_buf.plain (buf_data.cluster_cfg fx_conf) } rfl rfl

/-- C10: `rm_srv_from_cluster` called with an id absent from the live peer
set still proceeds: the peer set is untouched (only step-down is skipped),
the configuration filtered of that id is derived from the
current-or-uncommitted configuration, appended as a `conf` log entry,
stored as the uncommitted configuration with `config_changing_` true, and
replication is triggered. -/
theorem rm_srv_from_cluster_absent_peer
    (s : raft_server) (srv_id : Int)
    (hP : peers_find s.peers_ srv_id = none) :
    (rm_srv_from_cluster s srv_id).srv.peers_ = s.peers_ ∧
    (rm_srv_from_cluster s srv_id).srv.config_changing_ = true ∧
    (rm_srv_from_cluster s srv_id).srv.uncommitted_config_ =
      some (removed_conf s srv_id) ∧
    (rm_srv_from_cluster s srv_id).srv.log_store_.entries =
      s.log_store_.entries ++
        [ { term := s.term, val_type := log_val_type.conf,
            buf := buf_data.cluster_cfg (removed_conf s srv_id) } ] ∧
    (rm_srv_from_cluster s srv_id).effects = [effect.request_append_entries] := by
  simp [rm_srv_from_cluster, hP, removed_conf, store_log_entry,
        log_store.append]

/-- Witness for C10: removing id 7, which has no Peer Handle at the
leader fixture. -/
theorem rm_srv_from_cluster_absent_peer_witness :
    (rm_srv_from_cluster fx_leader 7).srv.peers_ = fx_leader.peers_ ∧
    (rm_srv_from_cluster fx_leader 7).srv.config_changing_ = true ∧
    (rm_srv_from_cluster fx_leader 7).srv.uncommitted_config_ =
      some (removed_conf fx_leader 7) ∧
    (rm_srv_from_cluster fx_leader 7).srv.log_store_.entries =
      fx_leader.log_store_.entries ++
        [ { term := fx_leader.term, val_type := log_val_type.conf,
            buf := buf_data.cluster_cfg (removed_conf fx_leader 7) } ] ∧
    (rm_srv_from_cluster fx_leader 7).effects =
      [effect.request_append_entries] :=
  rm_srv_from_cluster_absent_peer fx_leader 7 rfl

/-- Truncation to `int32` is the identity on values in range. -/
theorem toInt32_eq_self (x : Int) (h1 : -(2 ^ 31) ≤ x) (h2 : x < 2 ^ 31) :
    toInt32 x = x := by
  unfold toInt32
  omega

/-- Looking up a key just erased from the peer map fails. -/
theorem peers_find_erase (ps : List (Int × peer)) (i : Int) :
    peers_find (peers_erase ps i) i = none := by
  unfold peers_find peers_erase
  rw [List.find?_eq_none.mpr]
  · rfl
  · intro x hx
    have hmem := (List.mem_filter.mp hx).2
    simpa using hmem

/-- Unconditional effect of `rm_srv_from_cluster` on the
membership-session state: it always stores the filtered configuration as
uncommitted, raises `config_changing_`, appends the matching `conf` log
entry and triggers replication. -/
theorem rm_srv_from_cluster_spec (s : raft_server) (srv_id : Int) :
    (rm_srv_from_cluster s srv_id).srv.config_changing_ = true ∧
    (rm_srv_from_cluster s srv_id).srv.uncommitted_config_ =
      some (removed_conf s srv_id) ∧
    (rm_srv_from_cluster s srv_id).srv.log_store_.entries =
      s.log_store_.entries ++
        [ { term := s.term, val_type := log_val_type.conf,
            buf := buf_data.cluster_cfg (removed_conf s srv_id) } ] ∧
    (rm_srv_from_cluster s srv_id).effects = [effect.request_append_entries] := by
  cases hf : peers_find s.peers_ srv_id <;>
    simp [rm_srv_from_cluster, hf, removed_conf, current_or_uncommitted,
          get_config, store_log_entry, log_store.append]

/-- Fixture: pending joining peer (id 3) owning snapshot user context 42. -/
def fx_join_peer : peer :=
  { mk_peer (fx_srv 3) with snp_sync_ctx := some 42 }

/-- Fixture: the leader fixture while an uncommitted configuration exists
and a join is pending. -/
def fx_leader_unc : raft_server :=
  { fx_leader with config_changing_ := true,
                   uncommitted_config_ := some fx_unc_conf,
                   srv_to_join_ := some fx_join_peer,
                   conf_to_add_ := some (fx_srv 3) }

/-- C1 counterexample: at a state satisfying the equivalence
(`config_changing_` true and an uncommitted configuration present), the
join-failure branch of `handle_join_leave_rpc_err` leaves a state where
`config_changing_` is false while the uncommitted configuration still
exists, so this operation does not preserve the equivalence. -/
theorem join_err_breaks_config_changing_equiv :
    (fx_leader_unc.config_changing_ = true ↔
       fx_leader_unc.uncommitted_config_.isSome = true) ∧
    ¬ ((handle_join_leave_rpc_err fx_leader_unc
          msg_type.join_cluster_request fx_join_peer).srv.config_changing_ = true ↔
       ((handle_join_leave_rpc_err fx_leader_unc
          msg_type.join_cluster_request fx_join_peer).srv.uncommitted_config_).isSome = true) := by
  constructor
  · decide
  · decide

/-- C1 (amended): the completion branch of `sync_log_to_new_srv` and
`rm_srv_from_cluster` always establish the equivalence between
`config_changing_` and the existence of an uncommitted configuration
(both set the flag and store the configuration); the join-failure branch
of `handle_join_leave_rpc_err` clears `config_changing_` but leaves
`uncommitted_config_` untouched, so it preserves the equivalence only in
states with no uncommitted configuration. -/
theorem config_changing_uncommitted_equiv_ops
    (s : raft_server) (start_idx : Nat) (srv_id : Int) (t : msg_type) (p : peer)
    (hgap : toInt32 ((s.quick_commit_index_ : Int) - (start_idx : Int)) <
              s.params.log_sync_stop_gap_)
    (ht : t ≠ msg_type.leave_cluster_request) :
    ((sync_log_to_new_srv s start_idx).srv.config_changing_ = true ∧
     ((sync_log_to_new_srv s start_idx).srv.uncommitted_config_).isSome = true) ∧
    ((rm_srv_from_cluster s srv_id).srv.config_changing_ = true ∧
     ((rm_srv_from_cluster s srv_id).srv.uncommitted_config_).isSome = true) ∧
    ((handle_join_leave_rpc_err s t p).srv.config_changing_ = false ∧
     (handle_join_leave_rpc_err s t p).srv.uncommitted_config_ =
       s.uncommitted_config_) := by
  refine ⟨?_, ?_, ?_⟩
  · simp [sync_log_to_new_srv, hgap]
  · have h := rm_srv_from_cluster_spec s srv_id
    exact ⟨h.1, by rw [h.2.1]; rfl⟩
  · cases hj : s.srv_to_join_ <;>
      simp [handle_join_leave_rpc_err, ht, reset_srv_to_join, hj]

/-- Witness for the amended C1 at the leader fixture with a pending
uncommitted configuration: completion at start index 5 (gap 0), removal
of id 2, and a failed join RPC. -/
theorem config_changing_uncommitted_equiv_ops_witness :
    ((sync_log_to_new_srv fx_leader_unc 5).srv.config_changing_ = true ∧
     ((sync_log_to_new_srv fx_leader_unc 5).srv.uncommitted_config_).isSome = true) ∧
    ((rm_srv_from_cluster fx_leader_unc 2).srv.config_changing_ = true ∧
     ((rm_srv_from_cluster fx_leader_unc 2).srv.uncommitted_config_).isSome = true) ∧
    ((handle_join_leave_rpc_err fx_leader_unc
        msg_type.sync_log_request fx_join_peer).srv.config_changing_ = false ∧
     (handle_join_leave_rpc_err fx_leader_unc
        msg_type.sync_log_request fx_join_peer).srv.uncommitted_config_ =
       fx_leader_unc.uncommitted_config_) :=
  config_changing_uncommitted_equiv_ops fx_leader_unc 5 2
    msg_type.sync_log_request fx_join_peer (by decide) (by decide)

/-- Fixture: rejected `JoinClusterResponse` from the pending peer. -/
def fx_rej_resp : resp_msg :=
  { term := 3, type := msg_type.join_cluster_response, src := 3, dst := 1,
    next_idx := 0, accepted := false, result_code := cmd_result_code.OK }

/-- Fixture: the leader fixture with a pending join for peer 3. -/
def fx_leader_joining : raft_server :=
  { fx_leader with srv_to_join_ := some fx_join_peer,
                   conf_to_add_ := some (fx_srv 3) }

/-- C3 counterexample: on a rejected `JoinClusterResponse` the leader
keeps the pending Peer Handle and releases nothing — `srv_to_join_` is
still set and no free-callback effect (indeed no effect at all) is
produced, contrary to the claimed abandonment. -/
theorem handle_join_cluster_resp_reject_counterexample :
    (handle_join_cluster_resp fx_leader_joining fx_rej_resp).srv.srv_to_join_ ≠
      none ∧
    (handle_join_cluster_resp fx_leader_joining fx_rej_resp).effects = [] := by
  constructor
  · decide
  · decide

/-- C3 (amended): while a pending join peer exists, an accepted
`JoinClusterResponse` starts the log synchronization engine at the
reported next index; a rejected one is merely logged — the pending Peer
Handle is kept, no snapshot-context resource is freed, and the state is
unchanged (the stale attempt is only superseded later by the liveness
timeout in `handle_add_srv_req`). -/
theorem handle_join_cluster_resp_cases
    (s : raft_server) (resp : resp_msg) (p : peer)
    (hJ : s.srv_to_join_ = some p) :
    (resp.accepted = true →
       handle_join_cluster_resp s resp = sync_log_to_new_srv s resp.next_idx) ∧
    (resp.accepted = false →
       (handle_join_cluster_resp s resp).srv = s ∧
       (handle_join_cluster_resp s resp).effects = []) := by
  constructor <;> intro h <;> simp [handle_join_cluster_resp, hJ, h]

/-- Witness for the amended C3 at the joining-leader fixture. -/
theorem handle_join_cluster_resp_cases_witness :
    (fx_rej_resp.accepted = true →
       handle_join_cluster_resp fx_leader_joining fx_rej_resp =
         sync_log_to_new_srv fx_leader_joining fx_rej_resp.next_idx) ∧
    (fx_rej_resp.accepted = false →
       (handle_join_cluster_resp fx_leader_joining fx_rej_resp).srv =
         fx_leader_joining ∧
       (handle_join_cluster_resp fx_leader_joining fx_rej_resp).effects = []) :=
  handle_join_cluster_resp_cases fx_leader_joining fx_rej_resp fx_join_peer rfl

/-- C2: when an uncommitted configuration `u` exists, both configuration
builders derive the new configuration from `u` and not from the committed
one: the joining member is appended to (or the removed id filtered from)
`u`'s member list, the new previous-log index is `u`'s log index, and
`u`'s user context and async-replication flag are carried over. -/
theorem new_config_derived_from_uncommitted
    (s : raft_server) (start_idx : Nat) (srv_id : Int)
    (u : cluster_config) (c : srv_config)
    (hU : s.uncommitted_config_ = some u)
    (hC : s.conf_to_add_ = some c)
    (hgap : toInt32 ((s.quick_commit_index_ : Int) - (start_idx : Int)) <
              s.params.log_sync_stop_gap_) :
    (sync_log_to_new_srv s start_idx).srv.uncommitted_config_ =
      some { log_idx := s.log_store_.next_slot, prev_log_idx := u.log_idx,
             servers := u.servers ++ [c], user_ctx := u.user_ctx,
             async_replication := u.async_replication } ∧
    (rm_srv_from_cluster s srv_id).srv.uncommitted_config_ =
      some { log_idx := s.log_store_.next_slot, prev_log_idx := u.log_idx,
             servers := u.servers.filter (fun sc => sc.id != srv_id),
             user_ctx := u.user_ctx,
             async_replication := u.async_replication } := by
  constructor
  · simp [sync_log_to_new_srv, hgap, current_or_uncommitted, hU, hC,
          store_log_entry]
  · have h := rm_srv_from_cluster_spec s srv_id
    rw [h.2.1]
    simp [removed_conf, current_or_uncommitted, hU]

/-- Witness for C2 at the leader fixture with the uncommitted three-member
configuration: completion at start index 5 and removal of id 2. -/
theorem new_config_derived_from_uncommitted_witness :
    (sync_log_to_new_srv fx_leader_unc 5).srv.uncommitted_config_ =
      some { log_idx := fx_leader_unc.log_store_.next_slot,
             prev_log_idx := fx_unc_conf.log_idx,
             servers := fx_unc_conf.servers ++ [fx_srv 3],
             user_ctx := fx_unc_conf.user_ctx,
             async_replication := fx_unc_conf.async_replication } ∧
    (rm_srv_from_cluster fx_leader_unc 2).srv.uncommitted_config_ =
      some { log_idx := fx_leader_unc.log_store_.next_slot,
             prev_log_idx := fx_unc_conf.log_idx,
             servers := fx_unc_conf.servers.filter (fun sc => sc.id != (2 : Int)),
             user_ctx := fx_unc_conf.user_ctx,
             async_replication := fx_unc_conf.async_replication } :=
  new_config_derived_from_uncommitted fx_leader_unc 5 2 fx_unc_conf (fx_srv 3)
    rfl rfl (by decide)

/-- C5: a well-formed `AddServerRequest` reaching a leader with no
uncommitted change while another add is in progress is rejected with
`SERVER_IS_JOINING` without touching any state if the in-progress peer was
active within `RESPONSE_LIMIT` heartbeat intervals; otherwise the stale
attempt is superseded — its snapshot user context (if any) is freed
through the state machine callback, a fresh Peer Handle replaces it, the
join invitation carrying the current configuration is sent, and the
request is accepted with the next log slot. -/
theorem handle_add_srv_req_in_progress
    (s : raft_server) (req : req_msg) (e : msg_entry) (p : peer)
    (hE : req.log_entries = [e])
    (hT : e.val_type = log_val_type.cluster_server)
    (hRole : s.role_ = srv_role.leader)
    (hWp : s.write_paused_ = false)
    (hDup : peers_find s.peers_ (deserialize_srv_config e.buf).id = none)
    (hSelf : ¬ s.id_ = (deserialize_srv_config e.buf).id)
    (hCc : s.config_changing_ = false)
    (hJ : s.srv_to_join_ = some p) :
    (p.active_timer_us / 1000 ≤ RESPONSE_LIMIT * s.params.heart_beat_interval_ →
       (handle_add_srv_req s req).resp.result_code =
         cmd_result_code.SERVER_IS_JOINING ∧
       (handle_add_srv_req s req).srv = s ∧
       (handle_add_srv_req s req).effects = []) ∧
    (RESPONSE_LIMIT * s.params.heart_beat_interval_ < p.active_timer_us / 1000 →
       (handle_add_srv_req s req).resp.accepted = true ∧
       (handle_add_srv_req s req).resp.next_idx = s.log_store_.next_slot ∧
       (handle_add_srv_req s req).srv.conf_to_add_ =
         some (deserialize_srv_config e.buf) ∧
       (handle_add_srv_req s req).srv.srv_to_join_ =
         some (mk_peer (deserialize_srv_config e.buf)) ∧
       (handle_add_srv_req s req).effects =
         (match p.snp_sync_ctx with
          | some ctx => [effect.free_user_snp_ctx ctx]
          | none => []) ++
         [effect.send_req (deserialize_srv_config e.buf).id
            { term := s.term, type := msg_type.join_cluster_request,
              src := s.id_, dst := (deserialize_srv_config e.buf).id,
              last_log_term := 0,
              last_log_idx := s.log_store_.next_slot - 1,
              commit_idx := s.quick_commit_index_,
              log_entries :=
                [ { term := s.term, val_type := log_val_type.conf,
                    buf := msg_buf.plain (buf_data.cluster_cfg s.config_) } ] }]) := by
  constructor
  · intro h
    simp [handle_add_srv_req, hE, hT, hRole, hWp, hDup, hSelf, hCc, hJ, h,
          mk_resp, resp_msg.set_result_code]
  · intro h
    have h' : ¬ (p.active_timer_us / 1000 ≤
                  RESPONSE_LIMIT * s.params.heart_beat_interval_) :=
      Nat.not_le.mpr h
    cases hsc : p.snp_sync_ctx <;>
      simp [handle_add_srv_req, hE, hT, hRole, hWp, hDup, hSelf, hCc, hJ, h',
            hsc, reset_srv_to_join, add_srv_proceed,
            invite_srv_to_join_cluster, get_config, mk_peer, mk_resp,
            resp_msg.accept]

/-- Fixture: the joining-leader fixture whose pending peer has been
inactive for a very long time. -/
def fx_leader_stale_join : raft_server :=
  { fx_leader with
      srv_to_join_ := some { fx_join_peer with active_timer_us := 10 ^ 10 },
      conf_to_add_ := some (fx_srv 3) }

/-- Fixture: `AddServerRequest` carrying the descriptor of server 4. -/
def fx_add_req : req_msg :=
  { term := 3, type := msg_type.add_server_request, src := 1, dst := 1,
    last_log_term := 0, last_log_idx := 6, commit_idx := 5,
    log_entries := [ { term := 3, val_type := log_val_type.cluster_server,
                       buf := msg_buf.plain (buf_data.srv_cfg (fx_srv 4)) } ] }

/-- Witness for C5: adding server 4 at the leader fixture whose pending
join of server 3 went stale. -/
theorem handle_add_srv_req_in_progress_witness :
    (({ fx_join_peer with active_timer_us := 10 ^ 10 } : peer).active_timer_us / 1000 ≤
       RESPONSE_LIMIT * fx_leader_stale_join.params.heart_beat_interval_ →
       (handle_add_srv_req fx_leader_stale_join fx_add_req).resp.result_code =
         cmd_result_code.SERVER_IS_JOINING ∧
       (handle_add_srv_req fx_leader_stale_join fx_add_req).srv =
         fx_leader_stale_join ∧
       (handle_add_srv_req fx_leader_stale_join fx_add_req).effects = []) ∧
    (RESPONSE_LIMIT * fx_leader_stale_join.params.heart_beat_interval_ <
       ({ fx_join_peer with active_timer_us := 10 ^ 10 } : peer).active_timer_us / 1000 →
       (handle_add_srv_req fx_leader_stale_join fx_add_req).resp.accepted = true ∧
       (handle_add_srv_req fx_leader_stale_join fx_add_req).resp.next_idx =
         fx_leader_stale_join.log_store_.next_slot ∧
       (handle_add_srv_req fx_leader_stale_join fx_add_req).srv.conf_to_add_ =
         some (deserialize_srv_config
           (msg_buf.plain (buf_data.srv_cfg (fx_srv 4)))) ∧
       (handle_add_srv_req fx_leader_stale_join fx_add_req).srv.srv_to_join_ =
         some (mk_peer (deserialize_srv_config
           (msg_buf.plain (buf_data.srv_cfg (fx_srv 4))))) ∧
       (handle_add_srv_req fx_leader_stale_join fx_add_req).effects =
         (match ({ fx_join_peer with active_timer_us := 10 ^ 10 } : peer).snp_sync_ctx with
          | some ctx => [effect.free_user_snp_ctx ctx]
          | none => []) ++
         [effect.send_req (deserialize_srv_config
             (msg_buf.plain (buf_data.srv_cfg (fx_srv 4)))).id
            { term := fx_leader_stale_join.term,
              type := msg_type.join_cluster_request,
              src := fx_leader_stale_join.id_,
              dst := (deserialize_srv_config
                       (msg_buf.plain (buf_data.srv_cfg (fx_srv 4)))).id,
              last_log_term := 0,
              last_log_idx := fx_leader_stale_join.log_store_.next_slot - 1,
              commit_idx := fx_leader_stale_join.quick_commit_index_,
              log_entries :=
                [ { term := fx_leader_stale_join.term,
                    val_type := log_val_type.conf,
                    buf := msg_buf.plain
                             (buf_data.cluster_cfg fx_leader_stale_join.config_) } ] }]) :=
  handle_add_srv_req_in_progress fx_leader_stale_join fx_add_req
    { term := 3, val_type := log_val_type.cluster_server,
      buf := msg_buf.plain (buf_data.srv_cfg (fx_srv 4)) }
    { fx_join_peer with active_timer_us := 10 ^ 10 }
    rfl rfl rfl rfl rfl (by decide) rfl rfl

/-- Removing an id with no Peer Handle leaves the peer set untouched. -/
theorem rm_srv_from_cluster_peers_absent (s : raft_server) (srv_id : Int)
    (hP : peers_find s.peers_ srv_id = none) :
    (rm_srv_from_cluster s srv_id).srv.peers_ = s.peers_ := by
  simp [rm_srv_from_cluster, hP, store_log_entry]

/-- C8: on a persistent leave-RPC failure, when the peer set holds exactly
one entry (a two-member cluster) and the failed peer is in it, the peer's
heartbeat is disabled and it is erased from the live peer set immediately;
and in every case, whatever the cluster size, removal is finalized through
`rm_srv_from_cluster`: the configuration filtered of that peer's id is
stored as uncommitted, appended to the log as a `conf` entry, and
replication is triggered. -/
theorem handle_leave_rpc_err_forced_removal (s : raft_server) (p : peer) :
    (s.peers_.length = 1 →
     (peers_find s.peers_ p.cfg.id).isSome = true →
       (handle_join_leave_rpc_err s msg_type.leave_cluster_request p).srv.peers_ =
         peers_erase s.peers_ p.cfg.id ∧
       effect.peer_disable_hb p.cfg.id ∈
         (handle_join_leave_rpc_err s msg_type.leave_cluster_request p).effects) ∧
    ((handle_join_leave_rpc_err s msg_type.leave_cluster_request p).srv.config_changing_ =
       true ∧
     (handle_join_leave_rpc_err s msg_type.leave_cluster_request p).srv.uncommitted_config_ =
       some (removed_conf s p.cfg.id) ∧
     (handle_join_leave_rpc_err s msg_type.leave_cluster_request p).srv.log_store_.entries =
       s.log_store_.entries ++
         [ { term := s.term, val_type := log_val_type.conf,
             buf := buf_data.cluster_cfg (removed_conf s p.cfg.id) } ] ∧
     effect.request_append_entries ∈
       (handle_join_leave_rpc_err s msg_type.leave_cluster_request p).effects) := by
  constructor
  · intro h1 h2
    obtain ⟨q, hq⟩ := Option.isSome_iff_exists.mp h2
    have h3 := peers_find_erase s.peers_ p.cfg.id
    constructor
    · simp only [handle_join_leave_rpc_err, if_pos rfl, h1, if_pos, hq]
      exact rm_srv_from_cluster_peers_absent
        { s with peers_ := peers_erase s.peers_ p.cfg.id } p.cfg.id h3
    · simp [handle_join_leave_rpc_err, h1, hq]
  · by_cases h1 : s.peers_.length = 1
    · cases hq : peers_find s.peers_ p.cfg.id with
      | none =>
          have h := rm_srv_from_cluster_spec s p.cfg.id
          simp only [handle_join_leave_rpc_err, if_pos rfl, h1, if_pos, hq]
          exact ⟨h.1, h.2.1, h.2.2.1, by simp [h.2.2.2]⟩
      | some q =>
          have h := rm_srv_from_cluster_spec
            { s with peers_ := peers_erase s.peers_ p.cfg.id } p.cfg.id
          simp only [handle_join_leave_rpc_err, if_pos rfl, h1, if_pos, hq]
          exact ⟨h.1, h.2.1, h.2.2.1, by simp [h.2.2.2]⟩
    · have h := rm_srv_from_cluster_spec s p.cfg.id
      simp only [handle_join_leave_rpc_err, if_pos rfl, if_neg h1]
      exact ⟨h.1, h.2.1, h.2.2.1, by simp [h.2.2.2]⟩

/-- Witness for C8 at the two-member leader fixture: peer 2's leave RPC
keeps failing. -/
theorem handle_leave_rpc_err_forced_removal_witness :
    (fx_leader.peers_.length = 1 →
     (peers_find fx_leader.peers_ (mk_peer (fx_srv 2)).cfg.id).isSome = true →
       (handle_join_leave_rpc_err fx_leader msg_type.leave_cluster_request
          (mk_peer (fx_srv 2))).srv.peers_ =
         peers_erase fx_leader.peers_ (mk_peer (fx_srv 2)).cfg.id ∧
       effect.peer_disable_hb (mk_peer (fx_srv 2)).cfg.id ∈
         (handle_join_leave_rpc_err fx_leader msg_type.leave_cluster_request
            (mk_peer (fx_srv 2))).effects) ∧
    ((handle_join_leave_rpc_err fx_leader msg_type.leave_cluster_request
        (mk_peer (fx_srv 2))).srv.config_changing_ = true ∧
     (handle_join_leave_rpc_err fx_leader msg_type.leave_cluster_request
        (mk_peer (fx_srv 2))).srv.uncommitted_config_ =
       some (removed_conf fx_leader (mk_peer (fx_srv 2)).cfg.id) ∧
     (handle_join_leave_rpc_err fx_leader msg_type.leave_cluster_request
        (mk_peer (fx_srv 2))).srv.log_store_.entries =
       fx_leader.log_store_.entries ++
         [ { term := fx_leader.term, val_type := log_val_type.conf,
             buf := buf_data.cluster_cfg
                      (removed_conf fx_leader (mk_peer (fx_srv 2)).cfg.id) } ] ∧
     effect.request_append_entries ∈
       (handle_join_leave_rpc_err fx_leader msg_type.leave_cluster_request
          (mk_peer (fx_srv 2))).effects) :=
  handle_leave_rpc_err_forced_removal fx_leader (mk_peer (fx_srv 2))

/-- Packing from a retained index with enough entries ahead yields exactly
the requested count. -/
theorem log_store_pack_length (ls : log_store) (idx cnt : Nat)
    (h1 : ls.start_index ≤ idx) (h2 : idx + cnt ≤ ls.next_slot) :
    (ls.pack idx cnt).length = cnt := by
  unfold log_store.pack
  rw [List.length_take, List.length_drop]
  unfold log_store.next_slot at h2
  omega

/-- C4: for `sync_log_to_new_srv(start_idx)` with
`gap = quick_commit_index_ − start_idx` (in `int32` range), exactly one of
three actions happens. If `gap < log_sync_stop_gap_`, catch-up completes:
the configuration entry admitting the pending member is appended, the
change flags are set, replication is triggered, and nothing is sent to the
peer. Else if `start_idx` precedes the log store's earliest retained
index, a snapshot-transfer request with that start index, the current term
and the commit index is sent to the peer. Else exactly
`min(gap, log_sync_batch_size_)` consecutive entries starting at
`start_idx` are packed and sent as one sync-log request. -/
theorem sync_log_to_new_srv_trichotomy
    (s : raft_server) (start_idx : Nat) (p : peer) (c : srv_config)
    (hJ : s.srv_to_join_ = some p)
    (hC : s.conf_to_add_ = some c)
    (hCommit : s.quick_commit_index_ < s.log_store_.next_slot)
    (hStop : 0 ≤ s.params.log_sync_stop_gap_)
    (hBatch : 0 ≤ s.params.log_sync_batch_size_)
    (hLo : -(2 ^ 31) ≤ (s.quick_commit_index_ : Int) - (start_idx : Int))
    (hHi : (s.quick_commit_index_ : Int) - (start_idx : Int) < 2 ^ 31) :
    ((s.quick_commit_index_ : Int) - (start_idx : Int) <
        s.params.log_sync_stop_gap_ →
       (sync_log_to_new_srv s start_idx).srv.config_changing_ = true ∧
       (sync_log_to_new_srv s start_idx).srv.uncommitted_config_ =
         some (added_conf s) ∧
       (added_conf s).servers = (current_or_uncommitted s).servers ++ [c] ∧
       (sync_log_to_new_srv s start_idx).srv.log_store_.entries =
         s.log_store_.entries ++
           [ { term := s.term, val_type := log_val_type.conf,
               buf := buf_data.cluster_cfg (added_conf s) } ] ∧
       (sync_log_to_new_srv s start_idx).effects =
         [effect.request_append_entries]) ∧
    (s.params.log_sync_stop_gap_ ≤
       (s.quick_commit_index_ : Int) - (start_idx : Int) →
     start_idx < s.log_store_.start_index →
       (sync_log_to_new_srv s start_idx).srv = s ∧
       (sync_log_to_new_srv s start_idx).effects =
         [effect.send_req p.cfg.id
            (create_sync_snapshot_req s.id_ p.cfg.id start_idx s.term
               s.quick_commit_index_)]) ∧
    (s.params.log_sync_stop_gap_ ≤
       (s.quick_commit_index_ : Int) - (start_idx : Int) →
     s.log_store_.start_index ≤ start_idx →
       (sync_log_to_new_srv s start_idx).srv = s ∧
       (s.log_store_.pack start_idx
          (min ((s.quick_commit_index_ : Int) - (start_idx : Int))
               s.params.log_sync_batch_size_).toNat).length =
         (min ((s.quick_commit_index_ : Int) - (start_idx : Int))
              s.params.log_sync_batch_size_).toNat ∧
       (sync_log_to_new_srv s start_idx).effects =
         [effect.send_req p.cfg.id
            { term := s.term, type := msg_type.sync_log_request, src := s.id_,
              dst := p.cfg.id, last_log_term := 0,
              last_log_idx := start_idx - 1,
              commit_idx := s.quick_commit_index_,
              log_entries :=
                [ { term := s.term, val_type := log_val_type.log_pack,
                    buf := msg_buf.pack
                             (s.log_store_.pack start_idx
                                (min ((s.quick_commit_index_ : Int) -
                                        (start_idx : Int))
                                     s.params.log_sync_batch_size_).toNat) } ] }]) := by
  have hg : toInt32 ((s.quick_commit_index_ : Int) - (start_idx : Int)) =
      (s.quick_commit_index_ : Int) - (start_idx : Int) :=
    toInt32_eq_self _ hLo hHi
  refine ⟨?_, ?_, ?_⟩
  · intro h
    simp [sync_log_to_new_srv, hg, h, added_conf, hC, store_log_entry,
          log_store.append]
  · intro h hs
    have h' : ¬ ((s.quick_commit_index_ : Int) - (start_idx : Int) <
                  s.params.log_sync_stop_gap_) := not_lt.mpr h
    simp [sync_log_to_new_srv, hg, h', hJ, hs]
  · intro h hs
    have h' : ¬ ((s.quick_commit_index_ : Int) - (start_idx : Int) <
                  s.params.log_sync_stop_gap_) := not_lt.mpr h
    have hs' : ¬ start_idx < s.log_store_.start_index := not_lt.mpr hs
    have hmle : min ((s.quick_commit_index_ : Int) - (start_idx : Int))
        s.params.log_sync_batch_size_ ≤
        (s.quick_commit_index_ : Int) - (start_idx : Int) := min_le_left _ _
    have hm0 : 0 ≤ min ((s.quick_commit_index_ : Int) - (start_idx : Int))
        s.params.log_sync_batch_size_ := le_min (le_trans hStop h) hBatch
    have hlen : (s.log_store_.pack start_idx
        (min ((s.quick_commit_index_ : Int) - (start_idx : Int))
             s.params.log_sync_batch_size_).toNat).length =
        (min ((s.quick_commit_index_ : Int) - (start_idx : Int))
             s.params.log_sync_batch_size_).toNat := by
      apply log_store_pack_length _ _ _ hs
      omega
    exact ⟨by simp [sync_log_to_new_srv, hg, h', hJ, hs'], hlen,
           by simp [sync_log_to_new_srv, hg, h', hJ, hs']⟩

/-- Witness for C4 at the joining-leader fixture, start index 1: gap 4
is at least the stop gap 2 and index 1 is retained, so exactly
`min(4, 3) = 3` entries are packed and sent. -/
theorem sync_log_to_new_srv_trichotomy_witness :
    (sync_log_to_new_srv fx_leader_joining 1).srv = fx_leader_joining ∧
    (fx_leader_joining.log_store_.pack 1
       (min ((fx_leader_joining.quick_commit_index_ : Int) - ((1 : Nat) : Int))
            fx_leader_joining.params.log_sync_batch_size_).toNat).length =
      (min ((fx_leader_joining.quick_commit_index_ : Int) - ((1 : Nat) : Int))
           fx_leader_joining.params.log_sync_batch_size_).toNat ∧
    (sync_log_to_new_srv fx_leader_joining 1).effects =
      [effect.send_req fx_join_peer.cfg.id
         { term := fx_leader_joining.term, type := msg_type.sync_log_request,
           src := fx_leader_joining.id_, dst := fx_join_peer.cfg.id,
           last_log_term := 0, last_log_idx := 1 - 1,
           commit_idx := fx_leader_joining.quick_commit_index_,
           log_entries :=
             [ { term := fx_leader_joining.term,
                 val_type := log_val_type.log_pack,
                 buf := msg_buf.pack
                          (fx_leader_joining.log_store_.pack 1
                             (min ((fx_leader_joining.quick_commit_index_ : Int) -
                                     ((1 : Nat) : Int))
                                  fx_leader_joining.params.log_sync_batch_size_).toNat) } ] }] :=
  (sync_log_to_new_srv_trichotomy fx_leader_joining 1 fx_join_peer (fx_srv 3)
      rfl rfl (by decide) (by decide) (by decide) (by decide) (by decide)).2.2
    (by decide) (by decide)

end NuRaft
